import Mathlib

/-!
Shallow embedding of the cardcraft match engine
(`src/components/cardcraft/game/system.py`) and proofs about it.

Modelling conventions:
* pyrsistent persistent maps (`PMap`) are association lists
  (`List (String × _)`) whose order models the map's iteration order;
  `alLookup` is `.get`, `alSet` is `.set`.
* pyrsistent vectors (`PVector`) are `List _`; `delete(-1)` is `dropLast`,
  `append` is `++ [x]`, `set(-1, x)` is `dropLast ++ [x]`, `turns[-1]` is
  `getLast?` (guarded by a nonempty hypothesis where Python would raise
  on an empty vector).
* Python scalars stored on a card are the inductive `Stat`
  (`str | int | bool | None`); event payloads (`T.Any`) are `EVal`,
  with a rational constructor for the float arithmetic in `v1_barrage`.
* raising (`raise`, `KeyError`) is `Except.error` / `Option.none`;
  wall-clock time (`time.time()`) is an explicit `now` parameter.
-/

/-- Scalar card values: `Stat = T.Union[str, int, float, bool, None]`
(the float case is unused by any code path modelled here). -/
inductive Stat where
  | null : Stat
  | s (val : String) : Stat
  | i (val : Int) : Stat
  | b (val : Bool) : Stat
deriving DecidableEq

/-- Event payloads (`T.Any` in the source): null, string, int, or the
rational result of the float arithmetic in `v1_barrage`. -/
inductive EVal where
  | null : EVal
  | s (val : String) : EVal
  | i (val : Int) : EVal
  | q (val : Rat) : EVal
deriving DecidableEq

/-- Python truthiness of a `Stat`, as used by `if self.data.get("_rotation_locked"):`. -/
def truthy : Stat → Bool
  | Stat.null => false
  | Stat.s val => decide (val ≠ "")
  | Stat.i val => decide (val ≠ 0)
  | Stat.b val => val

/-- Python `int()` coercion of a `Stat` (only ever applied on a dead code
path of `v1_barrage`; a string that does not parse is mapped to 0 where
Python would raise). -/
def pyInt : Stat → Int
  | Stat.null => 0
  | Stat.s val => (val.toInt?).getD 0
  | Stat.i val => val
  | Stat.b val => if val then 1 else 0

/-- `PMap.get(key)` on an association list: the value at the first matching
key, if any. -/
def alLookup {β : Type} (l : List (String × β)) (k : String) : Option β :=
  (l.find? (fun p => decide (p.1 = k))).map (fun p => p.2)

/-- `PMap.set(key, val)`: replace the value at an existing key in place,
otherwise append the new binding. -/
def alSet {β : Type} (l : List (String × β)) (k : String) (val : β) : List (String × β) :=
  if (l.find? (fun p => decide (p.1 = k))).isSome then
    l.map (fun p => if p.1 = k then (k, val) else p)
  else l ++ [(k, val)]

/-- `Event(e, a, v)`: actor id, attribute / action name, payload. -/
structure Event where
  e : String
  a : String
  v : EVal
deriving DecidableEq

/-- An element of a player's hand. The source dynamically appends either a
card id or (through the `draw` defect) a whole vector of card ids. -/
inductive HandItem where
  | card (id : String) : HandItem
  | vec (ids : List String) : HandItem
deriving DecidableEq

/-- `Player` PClass fields (`hp`, `name`, `deck`, `hand`; `pot` / `hpmax`
are bare annotations without `field()` and carry no per-instance data). -/
structure Player where
  hp : Int
  name : String
  deck : List (String × List String)
  hand : List HandItem
deriving DecidableEq

/-- `Target` enumeration. -/
inductive Target where
  | Player : Target
  | Field : Target
deriving DecidableEq

/-- `Match` PClass fields. -/
structure Match where
  id : String
  fields : List (List (Option (List (String × Stat))))
  opener : Option String
  created : Option Int
  finished : Option Int
  winner : Option String
  futures : List (String × List Event)
  players : List (String × Player)
  responses : List (String × List String)
  cursor : Int × Int
  turns : List (List Event)
deriving DecidableEq

/-- The currently open turn, `self.turns[-1]` (empty when `turns` is empty,
where Python would raise; theorems guard with `turns ≠ []`). -/
def Match.openTurn (mt : Match) : List Event :=
  (mt.turns.getLast?).getD []

/-- `Match.do(e, a, val)`: append an event to the open turn and write the
turn back at index -1. -/
def Match.«do» (mt : Match) (e a : String) (val : EVal) : Match :=
  let registered : List Event := mt.openTurn ++ [⟨e, a, val⟩]
  { mt with turns := mt.turns.dropLast ++ [registered] }

/-- `Match._is_turn(ttype, t)`: cursor-parity ownership of the turn. -/
def Match._is_turn (mt : Match) (ttype : Target) (t : String) : Bool :=
  match ttype with
  | Target.Player => decide (mt.cursor.1 % 2 = (if mt.opener = some t then 0 else 1))
  | Target.Field => false

/-- `Match._can_draw(ttype, t)`: false once the open turn holds a draw event
authored by `t`, otherwise delegates to `_is_turn`. -/
def Match._can_draw (mt : Match) (ttype : Target) (t : String) : Bool :=
  match ttype with
  | Target.Player =>
    let drawn : Bool := (Match.openTurn mt).any (fun ev => decide (ev.e = t) && decide (ev.a = "draw"))
    if drawn then false else Match._is_turn mt ttype t
  | Target.Field => false

/-- `Match._can_play(ttype, t)`. -/
def Match._can_play (mt : Match) (ttype : Target) (t : String) : Bool :=
  Match._is_turn mt ttype t

/-- `Match._can_respond(ttype, t)`: `self.responses.get(t, None) is not None`. -/
def Match._can_respond (mt : Match) (ttype : Target) (t : String) : Bool :=
  (alLookup mt.responses t).isSome

/-- `Match.get(fn, ttype, t)`: name-based capability dispatch over the four
underscore-prefixed predicate methods; any other name raises
`Exception(f"Match cannot get {fn}")`. -/
def Match.get (mt : Match) (fn : String) (ttype : Target) (t : String) : Except String Bool :=
  if fn = "is_turn" then Except.ok (Match._is_turn mt ttype t)
  else if fn = "can_draw" then Except.ok (Match._can_draw mt ttype t)
  else if fn = "can_play" then Except.ok (Match._can_play mt ttype t)
  else if fn = "can_respond" then Except.ok (Match._can_respond mt ttype t)
  else Except.error ("Match cannot get " ++ fn)

/-- `Match.end()`: return unchanged when nobody is defeated; otherwise pick
the first player (iteration order) with positive hp as winner and stamp
`finished` with the current epoch time (the explicit `now`); raise
`AssertionError` when no such player exists. -/
def Match.«end» (mt : Match) (now : Int) : Except String Match :=
  if mt.players.any (fun p => decide (p.2.hp ≤ 0)) then
    match mt.players.find? (fun p => decide (0 < p.2.hp)) with
    | some kp => Except.ok { mt with winner := some kp.1, finished := some now }
    | none => Except.error "AssertionError"
  else Except.ok mt

/-- `Match.end_turn(player)`: append a fresh empty turn log; nothing else
is touched (in particular not the cursor, and `player` is unused). -/
def Match.end_turn (mt : Match) (player : String) : Match :=
  { mt with turns := mt.turns ++ [[]] }

/-- The `while n > 0` loop body of `Match.draw`, verbatim: each iteration
re-reads the (never shrinking) deck of the immutable `self`, binds the
result of `deck.delete(-1)` — the deck minus its last card, a vector — to
`card_id`, and rebinds `hand` to the original hand plus that vector.
`none` models the `KeyError` when the deck map lacks a `"cards"` entry. -/
def Match.drawLoop (pl : Player) : Nat → List HandItem → Option (List HandItem)
  | 0, hand => some hand
  | Nat.succ n, _hand =>
    match alLookup pl.deck "cards" with
    | none => none
    | some deckCards =>
      if deckCards.length < 1 then some _hand
      else Match.drawLoop pl n (pl.hand ++ [HandItem.vec deckCards.dropLast])

/-- `Match.draw(player, num)`: run the loop starting from `hand = v()` and
store the resulting hand back on the player (the deck itself is never
written back). `none` models the `KeyError` on a missing player. -/
def Match.draw (mt : Match) (player : String) (num : Nat) : Option Match :=
  match alLookup mt.players player with
  | none => none
  | some pl =>
    (Match.drawLoop pl num []).map (fun hand =>
      { mt with players := alSet mt.players player { pl with hand := hand } })

/-- `Card` PClass: raw data plus a stat-name → (field key, default) mapping. -/
structure Card where
  data : List (String × Stat)
  mapping : List (String × (String × Stat))
deriving DecidableEq

/-- `Card.get(stat)`: mapped key first, then the `"_" + stat` private-field
fallback, else null; the looked-up key is read from raw data with a null
default (the mapping's own default is never consulted). -/
def Card.get (c : Card) (stat : String) : Stat :=
  let mapping0 : Option (String × Stat) := alLookup c.mapping stat
  let mapping1 : Option (String × Stat) :=
    match mapping0 with
    | some mp => some mp
    | none =>
      if (alLookup c.data ("_" ++ stat)).isSome then some ("_" ++ stat, Stat.null)
      else none
  match mapping1 with
  | none => Stat.null
  | some kd => (alLookup c.data kd.1).getD Stat.null

/-- `Card.rotate(degrees)`: raise on a truthy `"_rotation_locked"` flag;
otherwise compute `old + degrees` but, as in the source, discard the
result of `self.data.set(...)` (persistent maps return the update) and
return `self` unchanged. -/
def Card.rotate (c : Card) (degrees : Int) : Except String Card :=
  if truthy ((alLookup c.data "_rotation_locked").getD Stat.null) then
    Except.error "AssertionError"
  else
    let old : Int := pyInt ((alLookup c.data "_rotation").getD (Stat.i 0))
    let _updated : List (String × Stat) := alSet c.data "_rotation" (Stat.i (old + degrees))
    Except.ok c

/-- `Match.v1_barrage(...)`: the source initialises `card: dict = {}` and
immediately evaluates `int(card[op_dmg_key])`, so every call raises
`KeyError` before the `target is None` check or either `do` call. The
unreachable tail is modelled faithfully after that first lookup. -/
def Match.v1_barrage (mt : Match) (card_id : String) (played_by : String)
    (op_perc : Rat) (op_dmg_key : String) (pl_perc : Rat) (pl_dmg_key : String) :
    Except String Match :=
  let card : List (String × Stat) := []
  let target : Option String :=
    ((mt.players.find? (fun p => decide (p.1 ≠ played_by))).map (fun p => p.1))
  match alLookup card op_dmg_key with
  | none => Except.error ("KeyError: " ++ op_dmg_key)
  | some opStat =>
    match target with
    | none => Except.error "TypeError: v1_barrage returned None"
    | some tgt =>
      match alLookup card pl_dmg_key with
      | none => Except.error ("KeyError: " ++ pl_dmg_key)
      | some plStat =>
        Except.ok
          (Match.«do»
            (Match.«do» mt tgt "life" (EVal.q (-1 * (op_perc * (pyInt opStat : Rat)))))
            played_by "life" (EVal.q (-1 * (pl_perc * (pyInt plStat : Rat)))))

/-! Concrete states used by counterexamples and witnesses. -/

/-- A healthy player holding the three-card deck `a, b, c` and an empty hand. -/
def plStacked : Player :=
  { hp := 20, name := "P One", deck := [("cards", ["a", "b", "c"])], hand := [] }

/-- A healthy player with an empty deck and hand. -/
def plBare : Player :=
  { hp := 20, name := "P Two", deck := [("cards", [])], hand := [] }

/-- A defeated player. -/
def plDead : Player :=
  { hp := 0, name := "P Dead", deck := [("cards", [])], hand := [] }

/-- A fresh two-player match: opener `p1`, cursor at turn 0, one open empty turn. -/
def mtT : Match :=
  { id := "m1", fields := [], opener := some "p1", created := some 0,
    finished := none, winner := none, futures := [],
    players := [("p1", plStacked), ("p2", plBare)], responses := [],
    cursor := (0, 0), turns := [[]] }

/-- The same match after one defeat: `p1` at 0 hp, `p2` alive. -/
def mtDef : Match :=
  { mtT with players := [("p1", plDead), ("p2", plBare)] }

/-- What `Match.draw mtT "p1" 2` actually produces: `p1`'s hand gained the
single element `["a", "b"]` (a vector, not a card id) and the deck kept
all three cards. -/
def mtDrawn : Match :=
  { mtT with players :=
      [("p1", { plStacked with hand := [HandItem.vec ["a", "b"]] }), ("p2", plBare)] }

/-- C1: the claim says `draw(p1, 2)` moves two card ids from the deck tail to
the hand (hand grows by `min(2, 3) = 2`, deck shrinks to 1, sizes sum
preserved). Evaluating the embedded source at that input instead leaves the
deck at 3 cards and puts one single element — the vector `["a", "b"]`
returned by `deck.delete(-1)` — into the hand, because the source discards
the deck update and binds the reduced vector itself to `card_id`. -/
theorem c1_draw_divergence :
    Match.draw mtT "p1" 2 = some mtDrawn
  ∧ (alLookup mtDrawn.players "p1").map (fun pl => pl.hand.length) = some 1
  ∧ (alLookup mtDrawn.players "p1").map (fun pl => alLookup pl.deck "cards")
      = some (some ["a", "b", "c"]) :=
  ⟨rfl, rfl, rfl⟩

/-- C2: `_is_turn(Player, t)` is exactly the parity test
`(cursor.turn_index % 2 == 0) == (opener == t)`, and `_is_turn(Field, t)`
is always false. -/
theorem c2_is_turn_parity (mt : Match) (t : String) :
    Match._is_turn mt Target.Player t
      = ((decide (mt.cursor.1 % 2 = 0)) == (decide (mt.opener = some t)))
  ∧ Match._is_turn mt Target.Field t = false := by
  refine ⟨?_, rfl⟩
  unfold Match._is_turn
  by_cases h : mt.opener = some t
  · simp [h]
  · rcases Int.emod_two_eq_zero_or_one mt.cursor.1 with h2 | h2 <;> simp [h, h2]

/-- C9: `v1_barrage` always raises `KeyError` on its empty placeholder card
dict before recording any event, for every state and every argument. -/
theorem c9_barrage_always_raises (mt : Match) (card_id played_by : String)
    (op_perc : Rat) (op_dmg_key : String) (pl_perc : Rat) (pl_dmg_key : String) :
    Match.v1_barrage mt card_id played_by op_perc op_dmg_key pl_perc pl_dmg_key
      = Except.error ("KeyError: " ++ op_dmg_key) :=
  rfl

/-- C10: `end_turn(actor)` appends exactly one empty turn log and leaves
every other field of the match state unchanged, for any actor. -/
theorem c10_end_turn_frame (mt : Match) (actor : String) :
    (Match.end_turn mt actor).turns = mt.turns ++ [[]]
  ∧ (Match.end_turn mt actor).cursor = mt.cursor
  ∧ (Match.end_turn mt actor).players = mt.players
  ∧ (Match.end_turn mt actor).responses = mt.responses
  ∧ (Match.end_turn mt actor).winner = mt.winner
  ∧ (Match.end_turn mt actor).finished = mt.finished
  ∧ (Match.end_turn mt actor).id = mt.id
  ∧ (Match.end_turn mt actor).fields = mt.fields
  ∧ (Match.end_turn mt actor).opener = mt.opener
  ∧ (Match.end_turn mt actor).created = mt.created
  ∧ (Match.end_turn mt actor).futures = mt.futures :=
  ⟨rfl, rfl, rfl, rfl, rfl, rfl, rfl, rfl, rfl, rfl, rfl⟩

/-- A card whose rotation counter sits at 0 and is not locked. -/
def cardRot : Card := { data := [("_rotation", Stat.i 0)], mapping := [] }

/-- A card carrying a truthy rotation lock. -/
def cardLocked : Card := { data := [("_rotation_locked", Stat.b true)], mapping := [] }

/-- C7: the claim says `rotate(90)` on an unlocked card returns a card whose
`_rotation` is old + 90. Evaluating the embedded source on a card with
`_rotation = 0` instead returns the card unchanged (`_rotation` still 0),
because the source discards the map returned by `self.data.set(...)`; the
locked branch does raise as claimed. -/
theorem c7_rotate_divergence :
    Card.rotate cardRot 90 = Except.ok cardRot
  ∧ alLookup cardRot.data "_rotation" = some (Stat.i 0)
  ∧ Card.rotate cardLocked 90 = Except.error "AssertionError" :=
  ⟨rfl, rfl, rfl⟩

/-- C8: any capability name outside the registered set
`is_turn, can_draw, can_play, can_respond` makes `Match.get` fail with an
error naming that capability — never a silently returned default. -/
theorem c8_unknown_capability (mt : Match) (fn : String) (ttype : Target) (t : String)
    (h : fn ∉ ["is_turn", "can_draw", "can_play", "can_respond"]) :
    Match.get mt fn ttype t = Except.error ("Match cannot get " ++ fn) := by
  simp only [List.mem_cons, List.not_mem_nil, or_false, not_or] at h
  obtain ⟨h1, h2, h3, h4⟩ := h
  simp [Match.get, h1, h2, h3, h4]

/-- C8 witness: `teleport` is not a registered capability and the dispatcher
rejects it with the expected message. -/
theorem c8_unknown_capability_witness :
    "teleport" ∉ ["is_turn", "can_draw", "can_play", "can_respond"]
  ∧ Match.get mtT "teleport" Target.Player "p1"
      = Except.error ("Match cannot get " ++ "teleport") :=
  ⟨by decide, c8_unknown_capability mtT "teleport" Target.Player "p1" (by decide)⟩

/-- C4 counterexample: in the fresh match `mtT` (opener `p1`, cursor `(0,0)`)
`is_turn(Player, p1)` is true; after one `end_turn` it has NOT become false,
nor has `is_turn(Player, p2)` become true, because `end_turn` appends a turn
log but never advances the cursor that `_is_turn` reads. -/
theorem c4_counterexample :
    Match._is_turn mtT Target.Player "p1" = true
  ∧ ¬ (Match._is_turn (Match.end_turn mtT "p1") Target.Player "p1" = false
       ∧ Match._is_turn (Match.end_turn mtT "p1") Target.Player "p2" = true) := by
  refine ⟨by decide, ?_⟩
  intro hcontra
  exact absurd hcontra.1 (by decide)

/-- C4 (amended): in a two-player match with opener `p1` where
`is_turn(Player, p1)` holds, one `end_turn` leaves the turn assignment
unchanged: `is_turn(Player, p1)` is still true and `is_turn(Player, p2)`
still false, because `end_turn` does not touch the cursor or the opener. -/
theorem c4_end_turn_preserves_is_turn (mt : Match) (p1 p2 actor : String)
    (hop : mt.opener = some p1) (hne : p1 ≠ p2)
    (h1 : Match._is_turn mt Target.Player p1 = true) :
    Match._is_turn (Match.end_turn mt actor) Target.Player p1 = true
  ∧ Match._is_turn (Match.end_turn mt actor) Target.Player p2 = false := by
  have key : ∀ x, Match._is_turn (Match.end_turn mt actor) Target.Player x
      = Match._is_turn mt Target.Player x := fun x => rfl
  rw [key, key]
  have hne2 : ¬ (mt.opener = some p2) := by
    rw [hop]
    simp [hne]
  unfold Match._is_turn at h1 ⊢
  rw [hop] at h1
  simp at h1
  refine ⟨?_, ?_⟩
  · rw [hop]
    simp [h1]
  · rw [if_neg hne2]
    simp only [decide_eq_false_iff_not]
    omega

/-- C4 witness for the amended claim, at the fresh match `mtT`. -/
theorem c4_end_turn_preserves_is_turn_witness :
    Match._is_turn (Match.end_turn mtT "p1") Target.Player "p1" = true
  ∧ Match._is_turn (Match.end_turn mtT "p1") Target.Player "p2" = false :=
  c4_end_turn_preserves_is_turn mtT "p1" "p2" "p1" (by rfl) (by decide) (by decide)

/-- The claim C6 example card: mapping `atk -> E_value`, raw data `E_value = 7`. -/
def cardAtk : Card :=
  { data := [("E_value", Stat.i 7)], mapping := [("atk", ("E_value", Stat.null))] }

/-- The claim C6 example card with only the private field `_rage = 3`. -/
def cardRage : Card := { data := [("_rage", Stat.i 3)], mapping := [] }

/-- The claim C6 example card with no mapping and no data. -/
def cardNone : Card := { data := [], mapping := [] }

/-- C6: `Card.get(stat)` reads the mapped field key from raw data when the
mapping contains `stat`; otherwise reads the private key `"_" + stat` when
raw data has it; otherwise returns null — together with the three concrete
examples from the claim. -/
theorem c6_card_get :
    (∀ (c : Card) (stat key : String) (d : Stat),
       alLookup c.mapping stat = some (key, d) →
       Card.get c stat = (alLookup c.data key).getD Stat.null)
  ∧ (∀ (c : Card) (stat : String) (pv : Stat),
       alLookup c.mapping stat = none →
       alLookup c.data ("_" ++ stat) = some pv →
       Card.get c stat = pv)
  ∧ (∀ (c : Card) (stat : String),
       alLookup c.mapping stat = none →
       alLookup c.data ("_" ++ stat) = none →
       Card.get c stat = Stat.null)
  ∧ Card.get cardAtk "atk" = Stat.i 7
  ∧ Card.get cardRage "rage" = Stat.i 3
  ∧ Card.get cardNone "cost" = Stat.null := by
  refine ⟨?_, ?_, ?_, rfl, rfl, rfl⟩
  · intro c stat key d hm
    simp [Card.get, hm]
  · intro c stat pv hm hd
    simp [Card.get, hm, hd]
  · intro c stat hm hd
    simp [Card.get, hm, hd]

/-- C6 witness: the general mapped-stat clause applied to the concrete
`cardAtk` example. -/
theorem c6_card_get_witness :
    alLookup cardAtk.mapping "atk" = some ("E_value", Stat.null)
  ∧ Card.get cardAtk "atk" = (alLookup cardAtk.data "E_value").getD Stat.null :=
  ⟨rfl, c6_card_get.1 cardAtk "atk" "E_value" Stat.null rfl⟩

/-- `_can_draw` on a `Player` target, reduced to its guard-then-delegate
shape (definitional). -/
theorem can_draw_unfold (mt : Match) (t : String) :
    Match._can_draw mt Target.Player t
      = (if (Match.openTurn mt).any (fun ev => decide (ev.e = t) && decide (ev.a = "draw"))
         then false else Match._is_turn mt Target.Player t) :=
  rfl

/-- C5: `can_draw(Player, t)` is true exactly when the open turn holds no
draw event authored by `t` and `is_turn(Player, t)` holds; recording a draw
event by `t` via `do` makes `can_draw` false within the same open turn; and
after `end_turn` (which opens an empty turn and leaves the cursor alone) it
is true again whenever `t` held the turn. -/
theorem c5_can_draw (mt : Match) (t actor : String) (val : EVal)
    (h : mt.turns ≠ []) :
    (Match._can_draw mt Target.Player t = true
       ↔ ((¬ ∃ ev, ev ∈ Match.openTurn mt ∧ ev.e = t ∧ ev.a = "draw")
            ∧ Match._is_turn mt Target.Player t = true))
  ∧ Match._can_draw (Match.«do» mt t "draw" val) Target.Player t = false
  ∧ (Match._is_turn mt Target.Player t = true →
       Match._can_draw (Match.end_turn (Match.«do» mt t "draw" val) actor)
         Target.Player t = true) := by
  refine ⟨?_, ?_, ?_⟩
  · rw [can_draw_unfold]
    by_cases hd : (Match.openTurn mt).any
        (fun ev => decide (ev.e = t) && decide (ev.a = "draw")) = true
    · rw [if_pos hd]
      simp only [List.any_eq_true, Bool.and_eq_true, decide_eq_true_eq] at hd
      obtain ⟨ev, hmem, he, ha⟩ := hd
      constructor
      · intro hfalse
        exact absurd hfalse (by simp)
      · rintro ⟨hno, _⟩
        exact absurd ⟨ev, hmem, he, ha⟩ hno
    · rw [if_neg hd]
      simp only [List.any_eq_true, Bool.and_eq_true, decide_eq_true_eq] at hd
      constructor
      · intro hit
        exact ⟨hd, hit⟩
      · rintro ⟨_, hit⟩
        exact hit
  · have hopen : Match.openTurn (Match.«do» mt t "draw" val)
        = Match.openTurn mt ++ [⟨t, "draw", val⟩] := by
      simp [Match.«do», Match.openTurn, List.getLast?_concat]
    rw [can_draw_unfold, hopen]
    simp
  · intro hit
    have hopen : Match.openTurn (Match.end_turn (Match.«do» mt t "draw" val) actor)
        = [] := by
      simp [Match.end_turn, Match.openTurn, List.getLast?_concat]
    rw [can_draw_unfold, hopen]
    have hsame : Match._is_turn (Match.end_turn (Match.«do» mt t "draw" val) actor)
        Target.Player t = Match._is_turn mt Target.Player t := rfl
    simpa [hsame] using hit

/-- C5 witness: in the fresh match `mtT`, `p1` holds the turn; after `p1`
records a draw the capability is denied, and after `end_turn` it is granted
again. -/
theorem c5_can_draw_witness :
    mtT.turns ≠ []
  ∧ Match._is_turn mtT Target.Player "p1" = true
  ∧ Match._can_draw (Match.«do» mtT "p1" "draw" (EVal.s "3")) Target.Player "p1" = false
  ∧ Match._can_draw
      (Match.end_turn (Match.«do» mtT "p1" "draw" (EVal.s "3")) "p1")
      Target.Player "p1" = true := by
  refine ⟨by decide, by decide, ?_, ?_⟩
  · exact (c5_can_draw mtT "p1" "p1" (EVal.s "3") (by decide)).2.1
  · exact (c5_can_draw mtT "p1" "p1" (EVal.s "3") (by decide)).2.2 (by decide)

/-- C3: `end()` (with the wall clock passed as `now`) returns the state
unchanged when nobody is at `hp <= 0`; when somebody is defeated and
somebody still has positive hp, it returns the state with `winner` set to
the first surviving player in iteration order and `finished` set to `now`;
and it fails (the source's `AssertionError`) exactly when somebody is
defeated and no player has positive hp. -/
theorem c3_end_cases (mt : Match) (now : Int) :
    ((∀ p, p ∈ mt.players → ¬ p.2.hp ≤ 0) → Match.«end» mt now = Except.ok mt)
  ∧ ((∃ p, p ∈ mt.players ∧ p.2.hp ≤ 0) →
       (∃ q, q ∈ mt.players ∧ 0 < q.2.hp) →
       ∃ k pl, mt.players.find? (fun r => decide (0 < r.2.hp)) = some (k, pl)
         ∧ Match.«end» mt now
             = Except.ok { mt with winner := some k, finished := some now })
  ∧ ((∃ msg, Match.«end» mt now = Except.error msg)
       ↔ ((∃ p, p ∈ mt.players ∧ p.2.hp ≤ 0)
            ∧ (∀ q, q ∈ mt.players → ¬ 0 < q.2.hp))) := by
  by_cases hany : mt.players.any (fun p => decide (p.2.hp ≤ 0)) = true
  · have hex : ∃ p, p ∈ mt.players ∧ p.2.hp ≤ 0 := by
      have h2 := List.any_eq_true.mp hany
      simpa using h2
    obtain ⟨pd, hpdmem, hpdle⟩ := hex
    cases hfind : mt.players.find? (fun p => decide (0 < p.2.hp)) with
    | some kp =>
      obtain ⟨kw, plw⟩ := kp
      have hend : Match.«end» mt now
          = Except.ok { mt with winner := some kw, finished := some now } := by
        unfold Match.«end»
        rw [if_pos hany, hfind]
      refine ⟨?_, ?_, ?_⟩
      · intro hall
        exact absurd hpdle (hall pd hpdmem)
      · intro _ _
        exact ⟨kw, plw, rfl, hend⟩
      · constructor
        · rintro ⟨msg, hmsg⟩
          rw [hend] at hmsg
          cases hmsg
        · rintro ⟨_, hnone⟩
          have hq := List.mem_of_find?_eq_some hfind
          have hp := List.find?_some hfind
          rw [decide_eq_true_eq] at hp
          exact absurd hp (hnone (kw, plw) hq)
    | none =>
      have hend : Match.«end» mt now = Except.error "AssertionError" := by
        unfold Match.«end»
        rw [if_pos hany, hfind]
      have hall0 : ∀ q, q ∈ mt.players → ¬ 0 < q.2.hp := by
        intro q hq
        have h3 := List.find?_eq_none.mp hfind q hq
        simpa using h3
      refine ⟨?_, ?_, ?_⟩
      · intro hall
        exact absurd hpdle (hall pd hpdmem)
      · intro _ hexq
        obtain ⟨q, hq, hqpos⟩ := hexq
        exact absurd hqpos (hall0 q hq)
      · constructor
        · intro _
          exact ⟨⟨pd, hpdmem, hpdle⟩, hall0⟩
        · intro _
          exact ⟨"AssertionError", hend⟩
  · rw [Bool.not_eq_true] at hany
    have hend : Match.«end» mt now = Except.ok mt := by
      unfold Match.«end»
      rw [hany]
      simp
    have hall : ∀ p, p ∈ mt.players → ¬ p.2.hp ≤ 0 := by
      intro p hp
      have h3 := List.any_eq_false.mp hany p hp
      simpa using h3
    refine ⟨fun _ => hend, ?_, ?_⟩
    · rintro ⟨p, hp, hple⟩ _
      exact absurd hple (hall p hp)
    · constructor
      · rintro ⟨msg, hmsg⟩
        rw [hend] at hmsg
        cases hmsg
      · rintro ⟨⟨p, hp, hple⟩, _⟩
        exact absurd hple (hall p hp)

/-- C3 witness: with `p1` defeated and `p2` alive, `end()` crowns `p2`
(the first surviving player in iteration order) and stamps `finished`. -/
theorem c3_end_cases_witness :
    ∃ k pl, mtDef.players.find? (fun r => decide (0 < r.2.hp)) = some (k, pl)
      ∧ Match.«end» mtDef 100
          = Except.ok { mtDef with winner := some k, finished := some 100 } :=
  (c3_end_cases mtDef 100).2.1
    ⟨("p1", plDead), by decide, by decide⟩
    ⟨("p2", plBare), by decide, by decide⟩
